import Mathlib

/-!
# Verification of `surl` (thorsager/surl) against its specification

A shallow embedding of `main.go` of the `surl` HTTP stub server.  Pure Go
helpers become Lean functions; the per-request handler becomes a pure
function from configuration, filesystem snapshot, request and writer state
to a result record; the shared counter's unsynchronized increment is given
a small interleaving semantics.  File paths are modelled as strings and the
relevant parts of Go's `path/filepath` (`Clean`, `Join`, `Abs` on a
Unix-style path) are embedded directly.
-/

namespace Surl

/-! ## String primitives

The embedding works on a string's character list (`String.data`) with
structural recursion; the paths involved are ASCII, where Go's byte-level
operations and these character-level ones coincide. -/

/-- Go `strings.HasPrefix(s, pre)` / `String.startsWith`: whether `pre`'s
characters form a prefix of `s`'s. -/
def strHasPre (s pre : String) : Bool := pre.data.isPrefixOf s.data

/-- Split a character list at every occurrence of `sep`
(Go `strings.Split` with a one-character separator). -/
def splitOnChar (sep : Char) : List Char → List (List Char)
  | [] => [[]]
  | c :: tl =>
    if c = sep then [] :: splitOnChar sep tl
    else
      match splitOnChar sep tl with
      | [] => [[c]]
      | h :: t => (c :: h) :: t

/-- Split a character list at the first occurrence of `sep`
(Go `strings.SplitN(s, sep, 2)` for a one-character separator):
`none` when `sep` does not occur. -/
def splitAtFirst (sep : Char) : List Char → Option (List Char × List Char)
  | [] => none
  | c :: tl =>
    if c = sep then some ([], tl)
    else
      match splitAtFirst sep tl with
      | none => none
      | some kv => some (c :: kv.1, kv.2)

/-! ## Go `path/filepath` model (Unix separator) -/

/-- One step of the lexical cleaning of `path.Clean`: push a path element
onto the (reversed) stack of output elements.  Empty and `.` elements are
dropped; `..` pops a non-`..` element, is dropped at the root of a rooted
path, and is kept otherwise. -/
def cleanPush (rooted : Bool) (acc : List (List Char)) (seg : List Char) : List (List Char) :=
  if seg = [] ∨ seg = ['.'] then acc
  else if seg = ['.', '.'] then
    match acc with
    | [] => if rooted then [] else [['.', '.']]
    | t :: rest => if t = ['.', '.'] then ['.', '.'] :: t :: rest else rest
  else seg :: acc

/-- Process all elements of a path through `cleanPush`. -/
def cleanSegs (rooted : Bool) (segs : List (List Char)) : List (List Char) :=
  (segs.foldl (cleanPush rooted) []).reverse

/-- Go `filepath.IsAbs` (Unix): a path is absolute iff it starts with `/`. -/
def goIsAbs (p : String) : Bool := p.data.head? = some '/'

/-- Go `filepath.Clean` (Unix): shortest lexically equivalent path. -/
def goClean (p : String) : String :=
  if p = "" then "."
  else
    let rooted := goIsAbs p
    let segs := cleanSegs rooted (splitOnChar '/' p.data)
    if segs = [] then (if rooted then "/" else ".")
    else String.mk ((if rooted then ['/'] else []) ++ List.intercalate ['/'] segs)

/-- Go `filepath.Join` for two elements: join the non-empty elements with
`/` and clean the result; all-empty input yields the empty string. -/
def goJoin (a b : String) : String :=
  if a = "" ∧ b = "" then ""
  else if a = "" then goClean b
  else if b = "" then goClean a
  else goClean (a ++ "/" ++ b)

/-- Go `filepath.Abs` (Unix): clean an already absolute path, otherwise
join it onto the working directory.  `os.Getwd` is modelled as the `cwd`
parameter, so the call cannot fail. -/
def goAbs (cwd p : String) : String :=
  if goIsAbs p then goClean p else goJoin cwd p

/-! ## Small string helpers from `main.go` -/

/-- Model of `trimFirst` (main.go): drop the first rune of a string.  All call
sites pass a string whose first rune is the one-byte `@`. -/
def trimFirst (s : String) : String := String.mk (s.data.drop 1)

/-- Model of `splitToKeyValue` (main.go): `strings.SplitN(s, sep, 2)`; an error
(`none`) iff the separator does not occur, otherwise the part before the
first separator and everything after it.  Both call sites in the repo use
the one-character separator `":"`, modelled as a `Char`. -/
def splitToKeyValue (s : String) (sep : Char) : Option (String × String) :=
  match splitAtFirst sep s.data with
  | none => none
  | some kv => some (String.mk kv.1, String.mk kv.2)

/-! ## Response headers and writer events

`http.Header` is modelled as an ordered list of name/value pairs;
`Add` appends, `Set` replaces, `Get` returns the first value (or `""`).
MIME canonicalization of header names is identity-abstracted: the program
only ever queries names it writes with identical spelling. -/

abbrev Header := List (String × String)

def headerAdd (h : Header) (name value : String) : Header := h ++ [(name, value)]

def headerGet (h : Header) (name : String) : String :=
  match h.find? (fun kv => kv.1 = name) with
  | some kv => kv.2
  | none => ""

def headerDel (h : Header) (name : String) : Header :=
  h.filter (fun kv => kv.1 ≠ name)

def headerSet (h : Header) (name value : String) : Header :=
  headerDel h name ++ [(name, value)]

/-- One observable call on an `http.ResponseWriter`: a `WriteHeader` with a
status code, or a `Write` carrying the bytes written (byte strings are
modelled as Lean strings; only content and length matter). -/
inductive WEvent where
  | writeHeader (code : Nat)
  | write (bytes : String)
deriving DecidableEq, Repr

/-- The state of the response writer: headers mutated before the status
line, and the ordered list of `WriteHeader`/`Write` calls. -/
structure RW where
  headers : Header
  events : List WEvent
deriving DecidableEq, Repr

def RW.addHeader (rw : RW) (name value : String) : RW :=
  { rw with headers := headerAdd rw.headers name value }

def RW.writeHeader (rw : RW) (code : Nat) : RW :=
  { rw with events := rw.events ++ [WEvent.writeHeader code] }

def RW.write (rw : RW) (bytes : String) : RW :=
  { rw with events := rw.events ++ [WEvent.write bytes] }

/-- Go's `http.Error`: drop any Content-Length, set the plain-text content
type and nosniff headers, emit the status code and the message followed by
a newline. -/
def httpError (rw : RW) (msg : String) (code : Nat) : RW :=
  let h1 := headerDel rw.headers "Content-Length"
  let h2 := headerSet h1 "Content-Type" "text/plain; charset=utf-8"
  let h3 := headerSet h2 "X-Content-Type-Options" "nosniff"
  let rw1 : RW := { headers := h3, events := rw.events }
  (rw1.writeHeader code).write (msg ++ "\n")

/-! ## Configuration, request, filesystem -/

/-- The flag-derived configuration (module-level flag variables in
`main.go`); immutable during request handling. -/
structure Config where
  userFlag : String
  dumpRequestFlag : Bool
  dumpBodyFlag : Bool
  statusCodeFlag : Nat
  responseHeadersFlag : List String
  responseBodyFlag : String
  exitAfterFlag : Nat
  description : String
deriving Repr

/-- The parts of an incoming `*http.Request` the handler consults:
the decoded Basic-Auth credentials (`r.BasicAuth()`), the URL path, and
the outcome of `httputil.DumpRequest` (`none` models a dump error). -/
structure Request where
  basicAuth : Option (String × String)
  urlPath : String
  dumpResult : Option String
deriving Repr

/-- Result of `os.Stat`. -/
structure FileInfo where
  isDir : Bool
  size : Nat
deriving DecidableEq, Repr

/-- A filesystem snapshot: `stat` models `os.Stat`, `openRead` models
`os.Open` followed by `io.Copy` (the file's bytes, or `none` on open
failure). -/
structure FS where
  stat : String → Option FileInfo
  openRead : String → Option String

/-- Model of `validateBasicAuth` (main.go): succeed iff the request carries Basic
credentials whose `user:pass` concatenation equals the configured
string. -/
def validateBasicAuth (r : Request) (up : String) : Bool :=
  match r.basicAuth with
  | some (user, pass) => up = user ++ ":" ++ pass
  | none => false

/-- Model of `addRawHeader` (main.go): split the raw string on the first `:` and
add the pair; `none` models the returned error when no colon occurs. -/
def addRawHeader (headers : Header) (rawHeader : String) : Option Header :=
  match splitToKeyValue rawHeader ':' with
  | none => none
  | some kv => some (headerAdd headers kv.1 kv.2)

/-- The loop over `responseHeadersFlag` in `globalHandler`: each failing
raw header is logged and skipped; the request is not aborted. -/
def applyRawHeaders (headers : Header) (raws : List String) : Header :=
  raws.foldl (fun acc raw =>
    match addRawHeader acc raw with
    | none => acc
    | some h2 => h2) headers

/-- Startup block of `main`, lines 73-89: when the body flag names a path, stat it at
startup; `none` models the fatal `os.Exit(1)` on stat failure.  Only a
directory sets `absBaseDir`; otherwise it stays `""`. -/
def startupAbsBaseDir (cwd : String) (fs : FS) (responseBodyFlag : String) : Option String :=
  if responseBodyFlag ≠ "" ∧ strHasPre responseBodyFlag "@" then
    let fn := trimFirst responseBodyFlag
    match fs.stat fn with
    | none => none
    | some s => if s.isDir then some (goAbs cwd fn) else some ""
  else some ""

/-! ## The request handler (`globalHandler`) -/

/-- Outcome of the body-resolution block (main.go lines 240-291).
`earlyReturn` records whether a `return` statement fired before the
closing response-count check. -/
structure BodyOut where
  rw : RW
  logData : List (String × String)
  opened : List String
  earlyReturn : Bool
deriving Repr

/-- Lines 269-282: record the served file, open it (early return on
failure), set `Content-Length` from the stat size when absent, write the
status line and stream the bytes (a copy error is logged but does not
return early). -/
def serveFile (cfg : Config) (fs : FS) (filename : String) (size : Nat)
    (rw : RW) (logData : List (String × String)) : BodyOut :=
  let logData := logData ++ [("served-file", filename)]
  match fs.openRead filename with
  | none => { rw := rw, logData := logData, opened := [], earlyReturn := true }
  | some content =>
    let rw := if headerGet rw.headers "Content-Length" = "" then
        rw.addHeader "Content-Length" (toString size)
      else rw
    let rw := (rw.writeHeader cfg.statusCodeFlag).write content
    { rw := rw, logData := logData, opened := [filename], earlyReturn := false }

/-- Lines 240-291: literal body, single-file body, or directory body with
the path-containment check. -/
def resolveBody (cfg : Config) (absBaseDir cwd : String) (fs : FS) (req : Request)
    (rw : RW) (logData : List (String × String)) : BodyOut :=
  if cfg.responseBodyFlag ≠ "" then
    if strHasPre cfg.responseBodyFlag "@" then
      let filename := trimFirst cfg.responseBodyFlag
      match fs.stat filename with
      | none => { rw := rw, logData := logData, opened := [], earlyReturn := true }
      | some s =>
        if s.isDir then
          let requestPath := goJoin filename (goClean ("/" ++ req.urlPath))
          let absRequestPath := goAbs cwd requestPath
          if ¬ strHasPre absRequestPath absBaseDir then
            { rw := rw, logData := logData, opened := [], earlyReturn := true }
          else
            match fs.stat absRequestPath with
            | none => { rw := rw, logData := logData, opened := [], earlyReturn := true }
            | some s2 => serveFile cfg fs absRequestPath s2.size rw logData
        else
          serveFile cfg fs filename s.size rw logData
    else
      let rw := (rw.writeHeader cfg.statusCodeFlag).write cfg.responseBodyFlag
      { rw := rw, logData := logData, opened := [], earlyReturn := false }
  else
    { rw := rw.writeHeader cfg.statusCodeFlag, logData := logData, opened := [],
      earlyReturn := false }

/-- What one run of the handler produced: final writer state, the shared
response counter after the request, whether the shutdown signal was sent,
the per-request log-context entries, and the files opened for serving. -/
structure HResult where
  rw : RW
  count : Nat
  signaled : Bool
  logData : List (String × String)
  opened : List String
deriving Repr

/-- Model of `globalHandler` (main.go lines 206-298) on a single request, with the
shared counter threaded explicitly (`count0` its value on entry). -/
def globalHandler (cfg : Config) (absBaseDir cwd : String) (fs : FS) (req : Request)
    (rw0 : RW) (count0 : Nat) : HResult :=
  if cfg.userFlag ≠ "" ∧ ¬ validateBasicAuth req cfg.userFlag then
    let rw := rw0.addHeader "WWW-Authenticate" "Basic realm=\"Auth Required\""
    { rw := httpError rw "Unauthorized" 401, count := count0, signaled := false,
      logData := [], opened := [] }
  else
    let count := count0 + 1
    let dumpOut : Option (List (String × String)) :=
      if cfg.dumpRequestFlag ∨ cfg.dumpBodyFlag then
        match req.dumpResult with
        | none => none
        | some d => some [("dump", d)]
      else some []
    match dumpOut with
    | none => { rw := rw0, count := count, signaled := false, logData := [], opened := [] }
    | some logData =>
      let rw1 : RW := { rw0 with headers := applyRawHeaders rw0.headers cfg.responseHeadersFlag }
      let rw2 := if headerGet rw1.headers "Server" = "" then
          rw1.addHeader "Server" cfg.description
        else rw1
      let b := resolveBody cfg absBaseDir cwd fs req rw2 logData
      if b.earlyReturn then
        { rw := b.rw, count := count, signaled := false, logData := b.logData,
          opened := b.opened }
      else
        { rw := b.rw, count := count,
          signaled := decide (cfg.exitAfterFlag ≠ 0 ∧ cfg.exitAfterFlag = count),
          logData := b.logData, opened := b.opened }

/-! ## The logging wrapper (`requestLogger`, `collectingResponseWriter`) -/

/-- Mutable fields of `collectingResponseWriter`. -/
structure CRW where
  statusCode : Nat
  size : Nat
deriving DecidableEq, Repr

/-- Field initialization in `requestLogger`: `statusCode` starts at 200,
`size` at its zero value. -/
def crwInit : CRW := { statusCode := 200, size := 0 }

/-- The wrapper's two methods: `WriteHeader` stores the code,
`Write` forwards and adds the byte count written (the full length on
success, which the model assumes). -/
def crwStep (c : CRW) (e : WEvent) : CRW :=
  match e with
  | WEvent.writeHeader code => { c with statusCode := code }
  | WEvent.write b => { c with size := c.size + b.length }

/-- The wrapper's observation of a whole sequence of downstream calls. -/
def crwRun (events : List WEvent) : CRW := events.foldl crwStep crwInit

/-- Model of `logUser` (main.go). -/
def logUser (r : Request) : String :=
  match r.basicAuth with
  | some (user, _) => user
  | none => "???"

/-- Model of `logPath` (main.go): the URL path, augmented with the served file
when the log context holds a nonempty `served-file` entry. -/
def logPath (r : Request) (logData : List (String × String)) : String :=
  match logData.find? (fun kv => kv.1 = "served-file") with
  | some kv => if kv.2 ≠ "" then r.urlPath ++ " (" ++ kv.2 ++ ")" else r.urlPath
  | none => r.urlPath

/-- The fields of the access-log line that depend on the wrapped writer
and log context. -/
structure LogLine where
  user : String
  path : String
  status : Nat
  size : Nat
deriving Repr

/-- Model of `requestLogger` (main.go lines 146-170): run the handler on a fresh
response writer wrapped in a `collectingResponseWriter`, then emit the log
line from the wrapper's recorded status and size. -/
def requestLogger (cfg : Config) (absBaseDir cwd : String) (fs : FS) (req : Request)
    (count0 : Nat) : LogLine × HResult :=
  let res := globalHandler cfg absBaseDir cwd fs req { headers := [], events := [] } count0
  let c := crwRun res.rw.events
  ({ user := logUser req, path := logPath req res.logData,
     status := c.statusCode, size := c.size }, res)

/-! ## The shared counter's increment as executed concurrently

`responseCount += 1` (line 216) on the shared `uint` carries no mutex and
no atomic: under the Go memory model it is a plain load followed by a
plain store of the incremented value, and two handler goroutines may
interleave these freely.  The model below gives two concurrent requests,
each executing exactly one load and one store of the shared counter. -/

structure RaceState where
  counter : Nat
  reg0 : Option Nat
  reg1 : Option Nat
  done0 : Bool
  done1 : Bool
deriving DecidableEq, Repr

/-- A scheduler choice: which goroutine performs the next half of its
`responseCount += 1`. -/
inductive RaceStep where
  | load0
  | store0
  | load1
  | store1
deriving DecidableEq, Repr

/-- Execute one step; a step that is not enabled (loading twice, storing
before loading, acting after completion) is a no-op. -/
def raceStep (s : RaceState) (st : RaceStep) : RaceState :=
  match st with
  | RaceStep.load0 =>
    if s.reg0 = none ∧ ¬ s.done0 then { s with reg0 := some s.counter } else s
  | RaceStep.store0 =>
    match s.reg0 with
    | some v => if ¬ s.done0 then { s with counter := v + 1, done0 := true } else s
    | none => s
  | RaceStep.load1 =>
    if s.reg1 = none ∧ ¬ s.done1 then { s with reg1 := some s.counter } else s
  | RaceStep.store1 =>
    match s.reg1 with
    | some v => if ¬ s.done1 then { s with counter := v + 1, done1 := true } else s
    | none => s

/-- Run a schedule from the startup state (`responseCount = 0`, both
requests pending). -/
def raceRun (sched : List RaceStep) : RaceState :=
  sched.foldl raceStep
    { counter := 0, reg0 := none, reg1 := none, done0 := false, done1 := false }

/-! ## CLI flag registration and the TLS branch -/

/-- The long names of the flags `main` registers with pflag
(main.go lines 43-51).  `keyFileFlag` is declared (line 34) and consulted
by the TLS branch (lines 102-107), but no registration call binds it. -/
def registeredFlags : List String :=
  ["version", "dump", "dump-body", "status", "header", "data", "count", "cert", "user"]

/-- The value `keyFileFlag` holds for the whole process: its Go zero
value, since no flag registration or assignment ever writes it. -/
def keyFileFlagValue : String := ""

/-- How the listener is started. -/
inductive ServeMode where
  | tls
  | plaintext
deriving DecidableEq, Repr

/-- Lines 102-108: serve TLS iff both the certificate and the key file
strings are nonempty, else plaintext. -/
def serveMode (certFile keyFile : String) : ServeMode :=
  if certFile ≠ "" ∧ keyFile ≠ "" then ServeMode.tls else ServeMode.plaintext

/-! ## Observation helpers over writer event sequences -/

/-- The status code of the first `WriteHeader` call of a sequence, if
any (spec-side observation, for comparison with the wrapper). -/
def firstWriteHeaderCode (events : List WEvent) : Option Nat :=
  (events.filterMap (fun e =>
    match e with
    | WEvent.writeHeader c => some c
    | WEvent.write _ => none)).head?

/-- The status code of the last `WriteHeader` call, defaulting to 200
(spec-side observation). -/
def lastWriteHeaderCode (events : List WEvent) : Nat :=
  (events.filterMap (fun e =>
    match e with
    | WEvent.writeHeader c => some c
    | WEvent.write _ => none)).getLastD 200

/-- The total byte count of all `Write` calls (spec-side observation). -/
def totalWritten (events : List WEvent) : Nat :=
  (events.map (fun e =>
    match e with
    | WEvent.writeHeader _ => 0
    | WEvent.write b => b.length)).sum

/-- The body bytes of a response: concatenation of all `Write` payloads. -/
def bodyBytes (events : List WEvent) : String :=
  (events.map (fun e =>
    match e with
    | WEvent.writeHeader _ => ""
    | WEvent.write b => b)).foldl (fun a b => a ++ b) ""

/-! ## Concrete scenarios for witnesses and counterexamples -/

/-- The writer state a fresh request starts with. -/
def rwEmpty : RW := { headers := [], events := [] }

/-- Stat view of a filesystem with directory `/srv/data`, a file
`/srv/data/etc/passwd` inside it, and the real `/etc/passwd` outside. -/
def statTrav (p : String) : Option FileInfo :=
  if p = "/srv/data" then some { isDir := true, size := 96 }
  else if p = "/srv/data/etc/passwd" then some { isDir := false, size := 5 }
  else if p = "/etc/passwd" then some { isDir := false, size := 12 }
  else none

/-- Contents for `statTrav`: the file inside the base directory holds
`inner`; the real `/etc/passwd` holds `root:secret!`. -/
def readTrav (p : String) : Option String :=
  if p = "/srv/data/etc/passwd" then some "inner"
  else if p = "/etc/passwd" then some "root:secret!"
  else none

def fsTrav : FS := { stat := statTrav, openRead := readTrav }

/-- Directory-mode configuration serving `/srv/data`. -/
def cfgTrav : Config :=
  { userFlag := "", dumpRequestFlag := false, dumpBodyFlag := false,
    statusCodeFlag := 200, responseHeadersFlag := [],
    responseBodyFlag := "@/srv/data", exitAfterFlag := 0, description := "surl/dev" }

/-- A parent-escaping request. -/
def reqTrav : Request :=
  { basicAuth := none, urlPath := "/../../etc/passwd", dumpResult := some "" }

/-- Configuration guarded by Basic-Auth credentials `alice:pw`. -/
def cfgAuth : Config :=
  { userFlag := "alice:pw", dumpRequestFlag := false, dumpBodyFlag := false,
    statusCodeFlag := 200, responseHeadersFlag := ["X-A:1"],
    responseBodyFlag := "hello", exitAfterFlag := 3, description := "surl/dev" }

/-- A request carrying the wrong password. -/
def reqBadAuth : Request :=
  { basicAuth := some ("alice", "nope"), urlPath := "/", dumpResult := some "" }

/-- Configuration with request dumping on. -/
def cfgDump : Config :=
  { userFlag := "", dumpRequestFlag := true, dumpBodyFlag := false,
    statusCodeFlag := 200, responseHeadersFlag := [],
    responseBodyFlag := "", exitAfterFlag := 0, description := "surl/dev" }

/-- A request whose `httputil.DumpRequest` fails. -/
def reqDumpFail : Request :=
  { basicAuth := none, urlPath := "/", dumpResult := none }

/-- A filesystem with the single regular file `/f` holding `abc`. -/
def fsFile : FS :=
  { stat := fun p => if p = "/f" then some { isDir := false, size := 3 } else none,
    openRead := fun p => if p = "/f" then some "abc" else none }

/-- Single-file-mode configuration serving `/f`. -/
def cfgFile : Config :=
  { userFlag := "", dumpRequestFlag := false, dumpBodyFlag := false,
    statusCodeFlag := 200, responseHeadersFlag := [],
    responseBodyFlag := "@/f", exitAfterFlag := 0, description := "surl/dev" }

/-- Filesystem at startup: the configured path `/d` is a regular file. -/
def fsStartup6 : FS :=
  { stat := fun p => if p = "/d" then some { isDir := false, size := 2 } else none,
    openRead := fun p => if p = "/d" then some "ab" else none }

/-- The same path later in the process lifetime: `/d` replaced by a
directory containing `x`. -/
def fsLater6 : FS :=
  { stat := fun p => if p = "/d" then some { isDir := true, size := 64 }
      else if p = "/d/x" then some { isDir := false, size := 1 } else none,
    openRead := fun p => if p = "/d/x" then some "y" else none }

/-- Path-mode configuration serving `/d`. -/
def cfg6 : Config :=
  { userFlag := "", dumpRequestFlag := false, dumpBodyFlag := false,
    statusCodeFlag := 200, responseHeadersFlag := [],
    responseBodyFlag := "@/d", exitAfterFlag := 0, description := "surl/dev" }

/-- A plain request for `/x`. -/
def req6 : Request :=
  { basicAuth := none, urlPath := "/x", dumpResult := some "" }

/-! # Theorems -/

/-- C2: the claim that the shared request counter is accessed under
synchronization, so that N concurrent requests always end with the counter
exactly N, fails on the code: `responseCount += 1` is a plain
read-modify-write with no mutex or atomic, and the interleaving
load₀, load₁, store₀, store₁ of two concurrent requests completes both
increments yet leaves the counter at 1.  A fully sequential schedule does
reach 2, so the loss is due to the interleaving alone. -/
theorem responseCount_race_lost_update :
    ((raceRun [RaceStep.load0, RaceStep.load1, RaceStep.store0, RaceStep.store1]).done0 = true ∧
     (raceRun [RaceStep.load0, RaceStep.load1, RaceStep.store0, RaceStep.store1]).done1 = true ∧
     (raceRun [RaceStep.load0, RaceStep.load1, RaceStep.store0, RaceStep.store1]).counter = 1) ∧
    (raceRun [RaceStep.load0, RaceStep.store0, RaceStep.load1, RaceStep.store1]).counter = 2 := by
  decide

/-- C3: the command line does not accept `--key`: `main` registers every
other documented flag but never binds `keyFileFlag`, which therefore keeps
its zero value `""` for the whole process, so the TLS branch
(`certFileFlag != "" && keyFileFlag != ""`) can never be taken and the
server always serves plaintext. -/
theorem keyFlag_never_registered :
    "key" ∉ registeredFlags ∧ "cert" ∈ registeredFlags ∧
    keyFileFlagValue = "" ∧
    (∀ certFile : String, serveMode certFile keyFileFlagValue = ServeMode.plaintext) := by
  refine ⟨by decide, by decide, rfl, fun c => ?_⟩
  simp [serveMode, keyFileFlagValue]

/-- C10: Basic-Auth validation succeeds exactly when the request carries
credentials whose `user:pass` concatenation equals the configured string;
in particular a configured `a:b:c` accepts both user `a` with password
`b:c` and user `a:b` with password `c`. -/
theorem validateBasicAuth_concat (r : Request) (up : String) :
    (validateBasicAuth r up = true ↔
      ∃ u p, r.basicAuth = some (u, p) ∧ up = u ++ ":" ++ p) ∧
    validateBasicAuth
      { basicAuth := some ("a", "b:c"), urlPath := "/", dumpResult := none } "a:b:c" = true ∧
    validateBasicAuth
      { basicAuth := some ("a:b", "c"), urlPath := "/", dumpResult := none } "a:b:c" = true := by
  refine ⟨?_, by decide, by decide⟩
  cases h : r.basicAuth with
  | none => simp [validateBasicAuth, h]
  | some uv => cases uv with
    | mk u p =>
      simp only [validateBasicAuth, h, decide_eq_true_eq, Option.some.injEq, Prod.mk.injEq]
      constructor
      · intro he
        exact ⟨u, p, ⟨rfl, rfl⟩, he⟩
      · rintro ⟨u1, p1, ⟨hu, hp⟩, he⟩
        subst hu; subst hp; exact he

/-- Witness for C10: the multi-colon credential accepted at both splits. -/
theorem validateBasicAuth_concat_witness :
    validateBasicAuth
      { basicAuth := some ("a", "b:c"), urlPath := "/", dumpResult := none } "a:b:c" = true :=
  (validateBasicAuth_concat
    { basicAuth := some ("a", "b:c"), urlPath := "/", dumpResult := none } "a:b:c").2.1

/-- C8 counterexample: the wrapper does not record the status code of the
*first* `WriteHeader` call.  After the call sequence
`WriteHeader 201; WriteHeader 404` the wrapper's recorded status is 404,
while the first call's code is 201. -/
theorem crw_not_first_writeHeader :
    (crwRun [WEvent.writeHeader 201, WEvent.writeHeader 404]).statusCode = 404 ∧
    firstWriteHeaderCode [WEvent.writeHeader 201, WEvent.writeHeader 404] = some 201 ∧
    (crwRun [WEvent.writeHeader 201, WEvent.writeHeader 404]).statusCode ≠ 201 := by
  decide

/-- C6 counterexample: the path kind is not fixed at startup.  With the
configured path `/d` stat'ed as a regular file at startup (so the base
directory is empty), a request served while `/d` is a regular file streams
`/d` itself, but the *same* process configuration serves the directory
branch — opening `/d/x` — once the filesystem presents `/d` as a
directory: the handler re-stats and re-classifies the path on every
request. -/
theorem pathKind_reclassified_each_request :
    startupAbsBaseDir "/w" fsStartup6 "@/d" = some "" ∧
    (globalHandler cfg6 "" "/w" fsStartup6 req6 rwEmpty 0).opened = ["/d"] ∧
    (globalHandler cfg6 "" "/w" fsStartup6 req6 rwEmpty 0).logData =
      [("served-file", "/d")] ∧
    (globalHandler cfg6 "" "/w" fsLater6 req6 rwEmpty 0).opened = ["/d/x"] ∧
    (globalHandler cfg6 "" "/w" fsLater6 req6 rwEmpty 0).logData =
      [("served-file", "/d/x")] := by
  decide

/-- Helper: after any call sequence the wrapper's status field holds the
last `WriteHeader` code, defaulting to the accumulator's. -/
theorem crwStep_foldl_statusCode (events : List WEvent) (c : CRW) :
    (events.foldl crwStep c).statusCode =
      (events.filterMap (fun e => match e with
        | WEvent.writeHeader x => some x
        | WEvent.write _ => none)).getLastD c.statusCode := by
  induction events generalizing c with
  | nil => rfl
  | cons e tl ih =>
    cases e with
    | writeHeader x =>
      simp only [List.foldl_cons, List.filterMap_cons, ih, List.getLastD_cons, crwStep]
    | write b =>
      simp only [List.foldl_cons, List.filterMap_cons, ih, crwStep]

/-- Helper: after any call sequence the wrapper's size field holds the
accumulator's size plus the total bytes written. -/
theorem crwStep_foldl_size (events : List WEvent) (c : CRW) :
    (events.foldl crwStep c).size = c.size + totalWritten events := by
  induction events generalizing c with
  | nil => simp [totalWritten]
  | cons e tl ih =>
    cases e with
    | writeHeader x =>
      simp [crwStep, totalWritten, ih, List.map_cons, List.sum_cons]
    | write b =>
      simp only [List.foldl_cons, crwStep, ih, totalWritten, List.map_cons, List.sum_cons]
      omega

/-- C8 (amended): for every sequence of `WriteHeader` and `Write` calls by
downstream stages, the wrapper records the status code of the *last*
`WriteHeader` call (200 when none occurs) and the sum of the byte counts
of all `Write` calls, and the access-log line reports exactly the
wrapper's recorded status and size. -/
theorem crw_last_writeHeader_and_total (events : List WEvent) (cfg : Config)
    (absBaseDir cwd : String) (fs : FS) (req : Request) (count0 : Nat) :
    (crwRun events).statusCode = lastWriteHeaderCode events ∧
    (crwRun events).size = totalWritten events ∧
    (requestLogger cfg absBaseDir cwd fs req count0).1.status =
      (crwRun (requestLogger cfg absBaseDir cwd fs req count0).2.rw.events).statusCode ∧
    (requestLogger cfg absBaseDir cwd fs req count0).1.size =
      (crwRun (requestLogger cfg absBaseDir cwd fs req count0).2.rw.events).size := by
  refine ⟨crwStep_foldl_statusCode events crwInit, ?_, rfl, rfl⟩
  have h := crwStep_foldl_size events crwInit
  simpa [crwRun, crwInit] using h

/-- Witness for C8 (amended) at a concrete call sequence. -/
theorem crw_last_writeHeader_and_total_witness :
    (crwRun [WEvent.write "ab", WEvent.writeHeader 404, WEvent.write "c"]).statusCode =
      lastWriteHeaderCode [WEvent.write "ab", WEvent.writeHeader 404, WEvent.write "c"] :=
  (crw_last_writeHeader_and_total
    [WEvent.write "ab", WEvent.writeHeader 404, WEvent.write "c"]
    cfgDump "" "/w" fsFile reqDumpFail 0).1

/-- Helper: `splitAtFirst` succeeds exactly on the decomposition at the
first occurrence of the separator. -/
theorem splitAtFirst_eq_some (sep : Char) (l k v : List Char) :
    splitAtFirst sep l = some (k, v) ↔ l = k ++ sep :: v ∧ sep ∉ k := by
  induction l generalizing k with
  | nil => simp [splitAtFirst]
  | cons c tl ih =>
    constructor
    · intro h
      simp only [splitAtFirst] at h
      by_cases hc : c = sep
      · rw [if_pos hc] at h
        simp only [Option.some.injEq, Prod.mk.injEq] at h
        obtain ⟨hk, hv⟩ := h
        subst hc
        simp [← hk, ← hv]
      · rw [if_neg hc] at h
        cases hs : splitAtFirst sep tl with
        | none => rw [hs] at h; exact absurd h (by simp)
        | some kv =>
          obtain ⟨k1, v1⟩ := kv
          rw [hs] at h
          simp only [Option.some.injEq, Prod.mk.injEq] at h
          obtain ⟨hk, hv⟩ := h
          subst hv
          obtain ⟨htl, hmem⟩ := (ih k1).mp hs
          subst hk
          refine ⟨by simp [htl], ?_⟩
          intro hin
          rcases List.mem_cons.mp hin with he | he


          · exact hc he.symm
          · exact hmem he
    · rintro ⟨hl, hn⟩
      cases k with
      | nil =>
        simp only [List.nil_append] at hl
        obtain ⟨hc, htl⟩ := List.cons_eq_cons.mp hl
        simp [splitAtFirst, hc, htl]
      | cons c1 k1 =>
        obtain ⟨hc, htl⟩ := List.cons_eq_cons.mp hl
        subst hc
        have hc1 : ¬ c = sep := fun he => hn (by simp [he])
        have hn1 : sep ∉ k1 := fun he => hn (by simp [he])
        have hrec := (ih k1).mpr ⟨htl, hn1⟩
        simp [splitAtFirst, hc1, hrec]

/-- Helper: `splitAtFirst` fails exactly when the separator is absent. -/
theorem splitAtFirst_eq_none (sep : Char) (l : List Char) :
    splitAtFirst sep l = none ↔ sep ∉ l := by
  induction l with
  | nil => simp [splitAtFirst]
  | cons c tl ih =>
    by_cases hc : c = sep
    · subst hc; simp [splitAtFirst]
    · cases hs : splitAtFirst sep tl with
      | none =>
        have hm := ih.mp hs
        have hcs : ¬ sep = c := fun he => hc he.symm
        simp [splitAtFirst, hc, hs, hm, hcs]
      | some kv =>
        have hm : sep ∈ tl := by
          by_contra hmem
          rw [ih.mpr hmem] at hs
          exact absurd hs (by simp)
        simp [splitAtFirst, hc, hs, hm]

/-- Helper: success case of `splitToKeyValue` on `:`. -/
theorem splitToKeyValue_colon_some (s k v : String) :
    splitToKeyValue s ':' = some (k, v) ↔
      s.data = k.data ++ ':' :: v.data ∧ ':' ∉ k.data := by
  rw [← splitAtFirst_eq_some ':' s.data k.data v.data]
  unfold splitToKeyValue
  cases hs : splitAtFirst ':' s.data with
  | none => simp
  | some kv =>
    obtain ⟨k1, v1⟩ := kv
    simp [String.ext_iff, Prod.ext_iff, eq_comm]

/-- Helper: failure case of `splitToKeyValue` on `:`. -/
theorem splitToKeyValue_colon_none (s : String) :
    splitToKeyValue s ':' = none ↔ ':' ∉ s.data := by
  rw [← splitAtFirst_eq_none ':' s.data]
  unfold splitToKeyValue
  cases hs : splitAtFirst ':' s.data <;> simp

/-- Helper: the header loop appends, in configuration order, exactly the
headers of the parseable raw strings. -/
theorem applyRawHeaders_eq (h : Header) (raws : List String) :
    applyRawHeaders h raws = h ++ raws.filterMap (fun raw => splitToKeyValue raw ':') := by
  induction raws generalizing h with
  | nil => simp [applyRawHeaders]
  | cons raw tl ih =>
    show List.foldl _ _ (raw :: tl) = _
    rw [List.foldl_cons]
    cases hs : splitToKeyValue raw ':' with
    | none =>
      show applyRawHeaders _ tl = _
      simp [addRawHeader, hs, ih, List.filterMap_cons]
    | some kv =>
      show applyRawHeaders _ tl = _
      simp [addRawHeader, hs, ih, List.filterMap_cons, headerAdd]

/-- C7: for every raw header string containing a colon the handler splits
it at the first colon — the value is everything after that colon — and
appends the pair to the response headers, preserving configuration order
and permitting duplicate names; a string lacking a colon fails
individually without aborting the remaining headers or the request. -/
theorem rawHeader_first_colon_contract (h : Header) (raws : List String) (s : String) :
    (∀ k v : String, splitToKeyValue s ':' = some (k, v) ↔
        s.data = k.data ++ ':' :: v.data ∧ ':' ∉ k.data) ∧
    (splitToKeyValue s ':' = none ↔ ':' ∉ s.data) ∧
    (∀ raw : String, addRawHeader h raw = none ↔ ':' ∉ raw.data) ∧
    applyRawHeaders h raws = h ++ raws.filterMap (fun raw => splitToKeyValue raw ':') ∧
    applyRawHeaders [] ["X-A:1", "bad", "X-A:2"] = [("X-A", "1"), ("X-A", "2")] := by
  refine ⟨fun k v => splitToKeyValue_colon_some s k v, splitToKeyValue_colon_none s,
    fun raw => ?_, applyRawHeaders_eq h raws, by decide⟩
  rw [← splitToKeyValue_colon_none raw]
  unfold addRawHeader
  cases hs : splitToKeyValue raw ':' <;> simp

/-- Witness for C7: the spec's own example `key:value`, plus a duplicate
header name surviving a malformed entry. -/
theorem rawHeader_first_colon_contract_witness :
    applyRawHeaders [] ["X-A:1", "bad", "X-A:2"] = [("X-A", "1"), ("X-A", "2")] :=
  (rawHeader_first_colon_contract [] [] "key:value").2.2.2.2

/-- C4: with a credential pair configured, a request lacking or
mismatching the configured Basic credentials is answered with status 401
and a `WWW-Authenticate` challenge header, no later pipeline stage runs
(no configured header applied, no file opened, no log-context entry, no
shutdown signal) and the request counter is untouched; with no credential
pair configured, every request passes the gate and is counted. -/
theorem authGate_contract (cfg : Config) (absBaseDir cwd : String) (fs : FS)
    (req : Request) (rw0 : RW) (count0 : Nat) :
    (cfg.userFlag ≠ "" → validateBasicAuth req cfg.userFlag = false →
      (globalHandler cfg absBaseDir cwd fs req rw0 count0).rw.events =
        rw0.events ++ [WEvent.writeHeader 401, WEvent.write "Unauthorized\n"] ∧
      ("WWW-Authenticate", "Basic realm=\"Auth Required\"") ∈
        (globalHandler cfg absBaseDir cwd fs req rw0 count0).rw.headers ∧
      (globalHandler cfg absBaseDir cwd fs req rw0 count0).count = count0 ∧
      (globalHandler cfg absBaseDir cwd fs req rw0 count0).signaled = false ∧
      (globalHandler cfg absBaseDir cwd fs req rw0 count0).opened = [] ∧
      (globalHandler cfg absBaseDir cwd fs req rw0 count0).logData = []) ∧
    (cfg.userFlag = "" →
      (globalHandler cfg absBaseDir cwd fs req rw0 count0).count = count0 + 1) := by
  constructor
  · intro h1 h2
    have hcond : cfg.userFlag ≠ "" ∧ ¬ validateBasicAuth req cfg.userFlag = true :=
      ⟨h1, by simp [h2]⟩
    unfold globalHandler
    rw [if_pos hcond]
    refine ⟨?_, ?_, rfl, rfl, rfl, rfl⟩
    · simp [httpError, RW.addHeader, RW.writeHeader, RW.write, headerAdd]
    · simp only [httpError, RW.addHeader, RW.writeHeader, RW.write, headerAdd,
        headerSet, headerDel]
      refine List.mem_append_left _ (List.mem_filter.mpr
        ⟨List.mem_append_left _ (List.mem_filter.mpr
          ⟨List.mem_filter.mpr
            ⟨List.mem_append_right _ (List.mem_singleton.mpr rfl), by decide⟩,
           by decide⟩),
         by decide⟩)
  · intro h
    have hcond : ¬ (cfg.userFlag ≠ "" ∧ ¬ validateBasicAuth req cfg.userFlag = true) := by
      simp [h]
    unfold globalHandler
    rw [if_neg hcond]
    dsimp only
    split
    · rfl
    · split <;> split <;> rfl

/-- Witness for C4: wrong password against `alice:pw` leaves the counter
at 7. -/
theorem authGate_contract_witness :
    (globalHandler cfgAuth "" "/w" fsFile reqBadAuth rwEmpty 7).count = 7 :=
  ((authGate_contract cfgAuth "" "/w" fsFile reqBadAuth rwEmpty 7).1
    (by decide) (by decide)).2.2.1

/-- C9: every request that passes the authentication gate increments the
shared counter exactly once, before any later stage runs — requests that
subsequently fail (dump error, stat or open failure, containment
rejection) still count — while requests rejected by the gate do not. -/
theorem counter_increment_post_auth (cfg : Config) (absBaseDir cwd : String) (fs : FS)
    (req : Request) (rw0 : RW) (count0 : Nat) :
    ((cfg.userFlag = "" ∨ validateBasicAuth req cfg.userFlag = true) →
      (globalHandler cfg absBaseDir cwd fs req rw0 count0).count = count0 + 1) ∧
    (cfg.userFlag ≠ "" → validateBasicAuth req cfg.userFlag = false →
      (globalHandler cfg absBaseDir cwd fs req rw0 count0).count = count0) := by
  constructor
  · intro h
    have hcond : ¬ (cfg.userFlag ≠ "" ∧ ¬ validateBasicAuth req cfg.userFlag = true) := by
      rcases h with h | h
      · simp [h]
      · simp [h]
    unfold globalHandler
    rw [if_neg hcond]
    dsimp only
    split
    · rfl
    · split <;> split <;> rfl
  · intro h1 h2
    unfold globalHandler
    rw [if_pos ⟨h1, by simp [h2]⟩]

/-- Witness for C9: a request whose dump fails — and therefore aborts
before any response write — still increments the counter. -/
theorem counter_increment_post_auth_witness :
    (globalHandler cfgDump "" "/w" fsFile reqDumpFail rwEmpty 0).count = 1 ∧
    (globalHandler cfgDump "" "/w" fsFile reqDumpFail rwEmpty 0).rw.events = [] :=
  ⟨(counter_increment_post_auth cfgDump "" "/w" fsFile reqDumpFail rwEmpty 0).1
    (Or.inl rfl), by decide⟩

/-- C5: when the body source names a regular file and no Content-Length
header is already present, the handler computes Content-Length from the
file's stat size and adds it to the headers before the status line and
body are written, and the emitted value equals the byte size of the
served content. -/
theorem contentLength_from_file_size (cfg : Config) (absBaseDir cwd : String)
    (fs : FS) (req : Request) (rw : RW) (logData : List (String × String))
    (n : Nat) (content : String)
    (hb : cfg.responseBodyFlag ≠ "")
    (hat : strHasPre cfg.responseBodyFlag "@" = true)
    (hstat : fs.stat (trimFirst cfg.responseBodyFlag) = some { isDir := false, size := n })
    (hopen : fs.openRead (trimFirst cfg.responseBodyFlag) = some content)
    (hlen : content.length = n)
    (hcl : rw.headers.find? (fun kv => kv.1 = "Content-Length") = none) :
    (resolveBody cfg absBaseDir cwd fs req rw logData).rw.headers =
      rw.headers ++ [("Content-Length", toString content.length)] ∧
    (resolveBody cfg absBaseDir cwd fs req rw logData).rw.events =
      rw.events ++ [WEvent.writeHeader cfg.statusCodeFlag, WEvent.write content] ∧
    headerGet (resolveBody cfg absBaseDir cwd fs req rw logData).rw.headers
      "Content-Length" = toString content.length ∧
    (resolveBody cfg absBaseDir cwd fs req rw logData).earlyReturn = false := by
  subst hlen
  have hget : headerGet rw.headers "Content-Length" = "" := by
    unfold headerGet
    rw [hcl]
  unfold resolveBody
  rw [if_pos hb, if_pos hat]
  dsimp only
  rw [hstat]
  dsimp only
  rw [if_neg (by decide : ¬ (false = true))]
  unfold serveFile
  rw [hopen]
  dsimp only
  rw [if_pos hget]
  refine ⟨rfl, by simp [RW.addHeader, RW.writeHeader, RW.write, headerAdd], ?_, rfl⟩
  dsimp only [RW.addHeader, RW.writeHeader, RW.write, headerAdd]
  unfold headerGet
  rw [List.find?_append, hcl]
  simp

/-- Witness for C5: serving the 3-byte file `/f` emits Content-Length 3. -/
theorem contentLength_from_file_size_witness :
    headerGet (resolveBody cfgFile "" "/w" fsFile reqDumpFail rwEmpty []).rw.headers
      "Content-Length" = toString ("abc" : String).length :=
  (contentLength_from_file_size cfgFile "" "/w" fsFile reqDumpFail rwEmpty [] 3 "abc"
    (by decide) (by decide) (by decide) (by decide) (by decide) (by decide)).2.2.1

/-- C6 (amended): the configured path is stat'ed afresh on every request
and its file-vs-directory classification re-derived from that request-time
stat; only the base directory is computed at startup.  When the
filesystem's view of the path is unchanged since startup, the per-request
classification coincides with the startup one: a path stat'ed as a regular
file is served as the single-file case by every request, and a path
stat'ed as a directory takes the directory case — serving either nothing
or the directory-resolved file — on every request. -/
theorem pathKind_per_request_stat (cfg : Config) (absBaseDir cwd : String) (fs : FS)
    (req : Request) (rw : RW) (logData : List (String × String)) (info : FileInfo)
    (hb : cfg.responseBodyFlag ≠ "")
    (hat : strHasPre cfg.responseBodyFlag "@" = true)
    (hstat : fs.stat (trimFirst cfg.responseBodyFlag) = some info) :
    startupAbsBaseDir cwd fs cfg.responseBodyFlag =
      some (if info.isDir then goAbs cwd (trimFirst cfg.responseBodyFlag) else "") ∧
    (info.isDir = false →
      (resolveBody cfg absBaseDir cwd fs req rw logData).logData =
        logData ++ [("served-file", trimFirst cfg.responseBodyFlag)]) ∧
    (info.isDir = true →
      (resolveBody cfg absBaseDir cwd fs req rw logData).logData = logData ∨
      (resolveBody cfg absBaseDir cwd fs req rw logData).logData =
        logData ++ [("served-file",
          goAbs cwd (goJoin (trimFirst cfg.responseBodyFlag)
            (goClean ("/" ++ req.urlPath))))]) := by
  refine ⟨?_, ?_, ?_⟩
  · unfold startupAbsBaseDir
    rw [if_pos ⟨hb, hat⟩]
    dsimp only
    rw [hstat]
    cases hdir : info.isDir <;> simp [hdir]
  · intro hdir
    unfold resolveBody
    rw [if_pos hb, if_pos hat]
    dsimp only
    rw [hstat]
    dsimp only
    rw [if_neg (by simp [hdir] : ¬ (info.isDir = true))]
    unfold serveFile
    cases ho : fs.openRead (trimFirst cfg.responseBodyFlag) <;> rfl
  · intro hdir
    unfold resolveBody
    rw [if_pos hb, if_pos hat]
    dsimp only
    rw [hstat]
    dsimp only
    rw [if_pos hdir]
    by_cases hg : strHasPre (goAbs cwd (goJoin (trimFirst cfg.responseBodyFlag)
        (goClean ("/" ++ req.urlPath)))) absBaseDir = true
    · rw [if_neg (by simp [hg])]
      cases hs2 : fs.stat (goAbs cwd (goJoin (trimFirst cfg.responseBodyFlag)
          (goClean ("/" ++ req.urlPath)))) with
      | none => exact Or.inl rfl
      | some s2 =>
        unfold serveFile
        cases ho : fs.openRead (goAbs cwd (goJoin (trimFirst cfg.responseBodyFlag)
            (goClean ("/" ++ req.urlPath)))) <;> exact Or.inr rfl
    · rw [if_pos (by simp [hg])]
      exact Or.inl rfl

/-- Witness for C6 (amended): under the single-file filesystem `fsFile`
every request serves the configured file `/f` itself. -/
theorem pathKind_per_request_stat_witness :
    (resolveBody cfgFile "" "/w" fsFile reqDumpFail rwEmpty []).logData =
      [("served-file", trimFirst cfgFile.responseBodyFlag)] :=
  (pathKind_per_request_stat cfgFile "" "/w" fsFile reqDumpFail rwEmpty []
    { isDir := false, size := 3 } (by decide) (by decide) (by decide)).2.1 rfl

/-- C1: in directory mode the handler cleans the request's URL path
rooted, joins it onto the configured directory and resolves the result to
an absolute path; whenever that resolved path does not have the base
directory as a prefix, the request is rejected with nothing written, no
file opened and the body block returning early; every file the handler
does open passes the prefix containment check; and concretely, the
traversal request `/../../etc/passwd` against base `/srv/data` resolves
inside the base directory, opens only `/srv/data/etc/passwd`, and the
response body is the in-tree file's content, never that of the outside
`/etc/passwd`. -/
theorem dirMode_containment (cfg : Config) (absBaseDir cwd : String) (fs : FS)
    (req : Request) (rw : RW) (logData : List (String × String)) (info : FileInfo)
    (hb : cfg.responseBodyFlag ≠ "")
    (hat : strHasPre cfg.responseBodyFlag "@" = true)
    (hstat : fs.stat (trimFirst cfg.responseBodyFlag) = some info)
    (hdir : info.isDir = true) :
    (strHasPre (goAbs cwd (goJoin (trimFirst cfg.responseBodyFlag)
        (goClean ("/" ++ req.urlPath)))) absBaseDir = false →
      (resolveBody cfg absBaseDir cwd fs req rw logData).rw = rw ∧
      (resolveBody cfg absBaseDir cwd fs req rw logData).opened = [] ∧
      (resolveBody cfg absBaseDir cwd fs req rw logData).earlyReturn = true ∧
      (resolveBody cfg absBaseDir cwd fs req rw logData).logData = logData) ∧
    (∀ p ∈ (resolveBody cfg absBaseDir cwd fs req rw logData).opened,
      strHasPre p absBaseDir = true) ∧
    ((globalHandler cfgTrav "/srv/data" "/w" fsTrav reqTrav rwEmpty 0).opened =
        ["/srv/data/etc/passwd"] ∧
     bodyBytes (globalHandler cfgTrav "/srv/data" "/w" fsTrav reqTrav rwEmpty 0).rw.events =
        "inner" ∧
     readTrav "/etc/passwd" = some "root:secret!" ∧
     bodyBytes (globalHandler cfgTrav "/srv/data" "/w" fsTrav reqTrav rwEmpty 0).rw.events ≠
        "root:secret!") := by
  refine ⟨?_, ?_, by decide⟩
  · intro hpre
    unfold resolveBody
    rw [if_pos hb, if_pos hat]
    dsimp only
    rw [hstat]
    dsimp only
    rw [if_pos hdir, if_pos (by simp [hpre])]
    exact ⟨rfl, rfl, rfl, rfl⟩
  · intro p hp
    unfold resolveBody at hp
    rw [if_pos hb, if_pos hat] at hp
    dsimp only at hp
    rw [hstat] at hp
    dsimp only at hp
    rw [if_pos hdir] at hp
    by_cases hg : strHasPre (goAbs cwd (goJoin (trimFirst cfg.responseBodyFlag)
        (goClean ("/" ++ req.urlPath)))) absBaseDir = true
    · rw [if_neg (by simp [hg])] at hp
      cases hs2 : fs.stat (goAbs cwd (goJoin (trimFirst cfg.responseBodyFlag)
          (goClean ("/" ++ req.urlPath)))) with
      | none =>
        rw [hs2] at hp
        exact absurd hp (by simp)
      | some s2 =>
        rw [hs2] at hp
        unfold serveFile at hp
        cases ho : fs.openRead (goAbs cwd (goJoin (trimFirst cfg.responseBodyFlag)
            (goClean ("/" ++ req.urlPath)))) with
        | none =>
          rw [ho] at hp
          exact absurd hp (by simp)
        | some content =>
          rw [ho] at hp
          dsimp only at hp
          rw [List.mem_singleton.mp hp]
          exact hg
    · rw [if_pos (by simp [hg])] at hp
      exact absurd hp (by simp)

/-- Witness for C1: the file actually opened for the traversal request
sits under the base directory. -/
theorem dirMode_containment_witness :
    strHasPre "/srv/data/etc/passwd" "/srv/data" = true :=
  (dirMode_containment cfgTrav "/srv/data" "/w" fsTrav reqTrav rwEmpty []
    { isDir := true, size := 96 } (by decide) (by decide) (by decide) rfl).2.1
    "/srv/data/etc/passwd" (by decide)

end Surl
